import Mathlib

/- Shallow embedding of the Windows launcher in `src/dist_tools/launcher.c`
(debug and release builds selected by the `DEBUG_MODE` preprocessor flag) and
`src/dist_output/dist_tools/launcher.c` (release build only; its body is the
release branch of the former).  Paths and messages are `List Char`; the OS
calls (`GetModuleFileName`, `SetCurrentDirectory`, `GetFileAttributes`,
`_putenv`, `CreateProcess`, `GetLastError`) are an oracle `World`. -/

def str (s : String) : List Char := s.toList

/-- A path separator as recognised by the CRT `_splitpath` / `_makepath`. -/
def isSep (c : Char) : Bool := c == '\\' || c == '/'

/-- The drive part of `_splitpath`: two characters when the second is `':'`. -/
def splitDrive (p : List Char) : List Char × List Char :=
  match p with
  | a :: b :: rest => if b = ':' then ([a, b], rest) else ([], p)
  | _ => ([], p)

/-- The directory/filename split of `_splitpath`: the directory component is
everything up to and including the last path separator. -/
def splitDirFile : List Char → List Char × List Char
  | [] => ([], [])
  | c :: rest =>
    let q := splitDirFile rest
    if q.1 = [] then
      if isSep c then ([c], rest) else ([], c :: rest)
    else (c :: q.1, q.2)

def endsWithSep (l : List Char) : Bool :=
  match l.getLast? with
  | some c => isSep c
  | none => false

/-- `_makepath(out, drive, dir, NULL, NULL)`: drive then directory, with a
backslash appended when a non-empty directory does not already end in a
separator. -/
def makepath (drive dir : List Char) : List Char :=
  if dir = [] then drive
  else if endsWithSep dir then drive ++ dir
  else drive ++ dir ++ ['\\']

/-- The base directory `cwd` computed by the launcher from its image path via
`_splitpath` followed by `_makepath`. -/
def cwdOf (p : List Char) : List Char :=
  makepath (splitDrive p).1 (splitDirFile (splitDrive p).2).1

/-- Interpreter file relative to the base directory: `sprintf(pythonPath,
"%sbase_env\\python.exe", cwd)` in debug mode, `pythonw.exe` in release. -/
def interpRel (debug : Bool) : List Char :=
  if debug then str "base_env\\python.exe" else str "base_env\\pythonw.exe"

def pythonPathOf (debug : Bool) (cwd : List Char) : List Char :=
  cwd ++ interpRel debug

/-- `sprintf(bootScript, "%sboot.py", cwd)`. -/
def bootScriptOf (cwd : List Char) : List Char := cwd ++ str "boot.py"

/-- The packages directory `<base>site_packages` named in the PYTHONPATH
value. -/
def packagesDirOf (cwd : List Char) : List Char := cwd ++ str "site_packages"

/-- `sprintf(pythonEnv, "PYTHONPATH=%ssite_packages;%s", cwd, cwd)`. -/
def pythonEnvOf (cwd : List Char) : List Char :=
  str "PYTHONPATH=" ++ cwd ++ str "site_packages;" ++ cwd

/-- `sprintf(cmdLine, "\"%s\" \"%s\"", pythonPath, bootScript)`. -/
def cmdLineOf (pythonPath bootScript : List Char) : List Char :=
  str "\"" ++ pythonPath ++ str "\" \"" ++ bootScript ++ str "\""

/-- Split an environment assignment string at its first `'='`. -/
def splitAtEq : List Char → List Char × List Char
  | [] => ([], [])
  | c :: rest =>
    if c = '=' then ([], rest)
    else
      let q := splitAtEq rest
      (c :: q.1, q.2)

/-- `_putenv(s)`: overwrite the variable named before the first `'='` with the
value after it. -/
def putenv (env : List (List Char × List Char)) (s : List Char) :
    List (List Char × List Char) :=
  let q := splitAtEq s
  (q.1, q.2) :: env.filter (fun e => e.1 != q.1)

def lookupEnv (env : List (List Char × List Char)) (k : List Char) :
    Option (List Char) :=
  match env with
  | [] => none
  | e :: rest => if e.1 = k then some e.2 else lookupEnv rest k

def errMsgSelfLoc : List Char := str "Failed to get executable path."

def errMsgWorkDir : List Char := str "Failed to set current directory."

def errMsgInterp (pythonPath : List Char) : List Char :=
  str "Python environment not found at:\n" ++ pythonPath ++
    str "\n\nPlease ensure base_env is configured correctly."

/-- The decimal rendering `printf`-style `%d` gives a `DWORD` error code. -/
def winErrDecimal (e : Nat) : List Char :=
  (toString (if e < 2 ^ 31 then (e : Int) else (e : Int) - 2 ^ 32)).toList

def errMsgSpawn (e : Nat) : List Char :=
  str "Failed to launch process.\nError code: " ++ winErrDecimal e

/-- Oracle for the OS calls the launcher makes, plus the inherited
environment, the error code `GetLastError` would report, and the exit code
the child will eventually produce. -/
structure World where
  imagePath : Option (List Char)
  setCurrentDirOk : List Char → Bool
  fileExists : List Char → Bool
  putenvOk : Bool
  createProcessOk : Bool
  lastError : Nat
  env : List (List Char × List Char)
  childExitCode : Nat

/-- Observable outcome of one launcher invocation. -/
structure LaunchResult where
  exitCode : Nat
  messages : List (List Char)
  envAfter : List (List Char × List Char)
  spawned : Option (List Char)
  waitedForChild : Bool
  closedProcessHandle : Bool
  closedThreadHandle : Bool
deriving DecidableEq

def failResult (msg : List Char) (env : List (List Char × List Char)) :
    LaunchResult :=
  { exitCode := 1, messages := [msg], envAfter := env, spawned := none,
    waitedForChild := false, closedProcessHandle := false,
    closedThreadHandle := false }

/-- Environment block after the preparation stage: `_putenv(pythonEnv)` with
its `int` result discarded, so a failing call leaves the block unchanged and
is never detected. -/
def envAfterPrep (w : World) (cwd : List Char) :
    List (List Char × List Char) :=
  if w.putenvOk then putenv w.env (pythonEnvOf cwd) else w.env

/-- The launcher body after `GetModuleFileName` succeeded, following the
source order: `SetCurrentDirectory`, path composition, `GetFileAttributes`
check, `_putenv`, `CreateProcess`, post-spawn handle handling. -/
def afterLocate (debug : Bool) (w : World) (exePath : List Char) :
    LaunchResult :=
  if w.setCurrentDirOk (cwdOf exePath) then
    if w.fileExists (pythonPathOf debug (cwdOf exePath)) then
      if w.createProcessOk then
        { exitCode := 0, messages := [],
          envAfter := envAfterPrep w (cwdOf exePath),
          spawned := some (cmdLineOf (pythonPathOf debug (cwdOf exePath))
            (bootScriptOf (cwdOf exePath))),
          waitedForChild := debug, closedProcessHandle := !debug,
          closedThreadHandle := true }
      else failResult (errMsgSpawn w.lastError) (envAfterPrep w (cwdOf exePath))
    else failResult (errMsgInterp (pythonPathOf debug (cwdOf exePath))) w.env
  else failResult errMsgWorkDir w.env

/-- One launcher invocation.  `args` are the user-supplied command-line
arguments (`argv` / `lpCmdLine`); the body never consults them. -/
def launcher (debug : Bool) (w : World) (_args : List (List Char)) :
    LaunchResult :=
  match w.imagePath with
  | none => failResult errMsgSelfLoc w.env
  | some exePath => afterLocate debug w exePath

/-- The run got past the interpreter-existence check, so `CreateProcess` was
attempted. -/
def reachesSpawn (debug : Bool) (w : World) : Bool :=
  match w.imagePath with
  | none => false
  | some p => w.setCurrentDirOk (cwdOf p) &&
      w.fileExists (pythonPathOf debug (cwdOf p))

/-- Absolute Windows path: drive letter, colon, separator. -/
def isAbsolute (s : List Char) : Bool :=
  match s with
  | a :: b :: c :: _ => a.isAlpha && b == ':' && isSep c
  | _ => false

def endsWith (sfx l : List Char) : Bool :=
  decide (sfx.length ≤ l.length) && (l.drop (l.length - sfx.length) == sfx)

/-- Split a character list at its first `'"'`, returning the quote-free part
before it and the remainder after it. -/
def splitAtQuote : List Char → Option (List Char × List Char)
  | [] => none
  | c :: rest =>
    if c = '"' then some ([], rest)
    else
      match splitAtQuote rest with
      | none => none
      | some q => some (c :: q.1, q.2)

def tok1Matches (a : List Char) : Bool :=
  (endsWith (str "\\base_env\\pythonw.exe") a &&
    decide ((str "\\base_env\\pythonw.exe").length < a.length)) ||
  (endsWith (str "\\base_env\\python.exe") a &&
    decide ((str "\\base_env\\python.exe").length < a.length))

def tok2Matches (a : List Char) : Bool :=
  endsWith (str "\\boot.py") a &&
    decide ((str "\\boot.py").length < a.length)

/-- Decision procedure for the spec's command-line pattern
`^"[^\x22]+\\base_env\\python(w)?\.exe" "[^\x22]+\\boot\.py"$`. -/
def matchesCmdPattern (s : List Char) : Bool :=
  match s with
  | '"' :: rest =>
    match splitAtQuote rest with
    | some (a1, ' ' :: '"' :: rest2) =>
      match splitAtQuote rest2 with
      | some (a2, []) => tok1Matches a1 && tok2Matches a2
      | _ => false
    | _ => false
  | _ => false

/-- Example world for the happy path: launcher at `C:\app\run.exe`, every OS
call succeeds. -/
def wOk : World :=
  { imagePath := some (str "C:\\app\\run.exe"),
    setCurrentDirOk := fun _ => true, fileExists := fun _ => true,
    putenvOk := true, createProcessOk := true, lastError := 0,
    env := [], childExitCode := 0 }

/-- World where the interpreter file is reported missing. -/
def wInterpMissing : World := { wOk with fileExists := fun _ => false }

/-- World where `CreateProcess` fails with error code 5. -/
def wSpawnFail : World :=
  { wOk with createProcessOk := false, lastError := 5 }

/-- World with an inherited prior PYTHONPATH value. -/
def wPrior : World := { wOk with env := [(str "PYTHONPATH", str "V")] }

/-- World where `_putenv` fails. -/
def wPutenvFail : World := { wOk with putenvOk := false }

/-- The directory/filename split is a decomposition of its input. -/
theorem splitDirFile_append (l : List Char) :
    (splitDirFile l).1 ++ (splitDirFile l).2 = l := by
  induction l with
  | nil => rfl
  | cons c rest ih =>
    simp only [splitDirFile]
    by_cases h1 : (splitDirFile rest).1 = []
    · by_cases h2 : isSep c = true <;> simp [h1, h2]
    · simpa [h1] using ih

/-- A non-empty directory component from the split ends in a separator. -/
theorem splitDirFile_dir_eq (l : List Char) :
    (splitDirFile l).1 = [] ∨
      ∃ t c, (splitDirFile l).1 = t ++ [c] ∧ isSep c = true := by
  induction l with
  | nil => left; rfl
  | cons c rest ih =>
    simp only [splitDirFile]
    rcases ih with h1 | ⟨t, c1, ht, hc1⟩
    · by_cases h2 : isSep c = true
      · right; exact ⟨[], c, by simp [h1, h2], h2⟩
      · left; simp [h1, h2]
    · right
      have h1 : (splitDirFile rest).1 ≠ [] := by simp [ht]
      exact ⟨c :: t, c1, by simp [h1, ht], hc1⟩

/-- When the head is a separator the directory component starts with it and
is non-empty. -/
theorem splitDirFile_cons_sep (c : Char) (rest : List Char)
    (h : isSep c = true) :
    ∃ t, (splitDirFile (c :: rest)).1 = c :: t := by
  simp only [splitDirFile]
  by_cases h1 : (splitDirFile rest).1 = []
  · exact ⟨[], by simp [h1, h]⟩
  · exact ⟨(splitDirFile rest).1, by simp [h1]⟩

/-- Structure of the base directory computed from an absolute image path:
drive letter, colon, a separator-led directory, ending in a separator, all of
whose characters come from the image path. -/
theorem cwdOf_shape (p : List Char) (h : isAbsolute p = true) :
    ∃ a c0 t0 c1 t1, cwdOf p = a :: ':' :: c0 :: t0 ∧
      cwdOf p = (a :: ':' :: t1) ++ [c1] ∧
      a.isAlpha = true ∧ isSep c0 = true ∧ isSep c1 = true ∧
      ∀ x ∈ cwdOf p, x ∈ p := by
  match p, h with
  | a :: b :: c0 :: rest, h =>
    simp only [isAbsolute, Bool.and_eq_true, beq_iff_eq] at h
    obtain ⟨⟨ha, hb⟩, hc0⟩ := h
    subst hb
    have hdr : splitDrive (a :: ':' :: c0 :: rest) = ([a, ':'], c0 :: rest) := by
      simp [splitDrive]
    obtain ⟨t0, ht0⟩ := splitDirFile_cons_sep c0 rest hc0
    have hne : (splitDirFile (c0 :: rest)).1 ≠ [] := by simp [ht0]
    rcases splitDirFile_dir_eq (c0 :: rest) with h1 | ⟨t1, c1, ht1, hc1⟩
    · exact absurd h1 hne
    have hend : endsWithSep (splitDirFile (c0 :: rest)).1 = true := by
      rw [ht1]
      simp [endsWithSep, List.getLast?_append, hc1]
    have hcwd : cwdOf (a :: ':' :: c0 :: rest) =
        [a, ':'] ++ (splitDirFile (c0 :: rest)).1 := by
      simp [cwdOf, hdr, makepath, hne, hend]
    refine ⟨a, c0, t0, c1, t1, ?_, ?_, ha, hc0, hc1, ?_⟩
    · rw [hcwd, ht0]; rfl
    · rw [hcwd, ht1]; simp
    · intro x hx
      rw [hcwd] at hx
      rcases List.mem_append.mp hx with hx | hx
      · simp only [List.mem_cons] at hx
        rcases hx with rfl | hx
        · simp
        · simp at hx; subst hx; simp
      · have : x ∈ (splitDirFile (c0 :: rest)).1 ++
            (splitDirFile (c0 :: rest)).2 := List.mem_append.mpr (Or.inl hx)
        rw [splitDirFile_append] at this
        simp [this]

/-- Appending onto an absolute path keeps it absolute. -/
theorem isAbsolute_append (l x : List Char) (h : isAbsolute l = true) :
    isAbsolute (l ++ x) = true := by
  match l, h with
  | a :: b :: c :: t, h => simpa [isAbsolute] using h

theorem endsWith_append (sfx t : List Char) : endsWith sfx (t ++ sfx) = true := by
  simp only [endsWith, List.length_append, Nat.add_sub_cancel,
    List.drop_left, Bool.and_eq_true, decide_eq_true_eq, beq_self_eq_true,
    and_true]
  omega

theorem splitAtQuote_append (a rest : List Char) (h : '"' ∉ a) :
    splitAtQuote (a ++ '"' :: rest) = some (a, rest) := by
  induction a with
  | nil => simp [splitAtQuote]
  | cons c t ih =>
    simp only [List.mem_cons, not_or] at h
    simp only [List.cons_append, splitAtQuote]
    rw [if_neg fun hc => h.1 hc.symm]
    simp only [List.append_eq]
    rw [ih h.2]

theorem splitAtEq_pythonEnv (v : List Char) :
    splitAtEq (str "PYTHONPATH=" ++ v) = (str "PYTHONPATH", v) := by
  have h : str "PYTHONPATH=" = ['P', 'Y', 'T', 'H', 'O', 'N', 'P', 'A', 'T',
      'H', '='] := rfl
  rw [h]
  simp only [List.cons_append, List.nil_append, splitAtEq]
  norm_num
  rfl

theorem lookupEnv_putenv (env : List (List Char × List Char)) (cwd : List Char) :
    lookupEnv (putenv env (pythonEnvOf cwd)) (str "PYTHONPATH") =
      some (cwd ++ str "site_packages;" ++ cwd) := by
  have h : pythonEnvOf cwd =
      str "PYTHONPATH=" ++ (cwd ++ str "site_packages;" ++ cwd) := by
    simp [pythonEnvOf, List.append_assoc]
  rw [putenv, h, splitAtEq_pythonEnv]
  simp [lookupEnv]

/-- C1: the launcher exits 0 exactly when the child process was created,
exits 1 on every failure before or during spawn, and its exit code is
unaffected by the child's eventual exit status. -/
theorem launcher_exit_code_iff_spawn (debug : Bool) (w : World)
    (args : List (List Char)) :
    ((launcher debug w args).exitCode = 0 ↔
      (launcher debug w args).spawned ≠ none) ∧
    ((launcher debug w args).exitCode = 0 ∨
      (launcher debug w args).exitCode = 1) ∧
    (∀ n : Nat, (launcher debug { w with childExitCode := n } args).exitCode =
      (launcher debug w args).exitCode) := by
  obtain ⟨ip, scd, fe, po, cpo, le, env, cec⟩ := w
  refine ⟨?_, ?_, fun n => ?_⟩ <;>
    cases ip <;>
      simp [launcher, afterLocate, failResult] <;>
        split_ifs <;>
          simp [failResult]

/-- C6: the launcher never reads its command-line arguments, so two runs
differing only in the user-supplied arguments are observationally
identical. -/
theorem launcher_ignores_args (debug : Bool) (w : World)
    (args1 args2 : List (List Char)) :
    launcher debug w args1 = launcher debug w args2 := rfl

/-- C7: after a successful spawn, debug mode waits for the child and closes
only the thread handle, release mode waits for nothing and closes both
handles, and either way the launcher exits 0 regardless of the child's exit
status. -/
theorem launcher_post_spawn (debug : Bool) (w : World) (args : List (List Char))
    (h : reachesSpawn debug w = true) (hcp : w.createProcessOk = true) :
    (launcher debug w args).exitCode = 0 ∧
    (launcher debug w args).waitedForChild = debug ∧
    (launcher debug w args).closedProcessHandle = !debug ∧
    (launcher debug w args).closedThreadHandle = true ∧
    (∀ n : Nat, (launcher debug { w with childExitCode := n } args).exitCode
      = 0) := by
  obtain ⟨ip, scd, fe, po, cpo, le, env, cec⟩ := w
  cases ip with
  | none => simp [reachesSpawn] at h
  | some p =>
    simp only [reachesSpawn, Bool.and_eq_true] at h
    simp only at hcp
    simp [launcher, afterLocate, h.1, h.2, hcp]

/-- Witness for C7 in both modes at the happy-path world. -/
theorem launcher_post_spawn_witness :
    ((launcher false wOk []).exitCode = 0 ∧
      (launcher false wOk []).waitedForChild = false ∧
      (launcher false wOk []).closedProcessHandle = !false ∧
      (launcher false wOk []).closedThreadHandle = true ∧
      (launcher false { wOk with childExitCode := 7 } []).exitCode = 0) ∧
    ((launcher true wOk []).exitCode = 0 ∧
      (launcher true wOk []).waitedForChild = true ∧
      (launcher true wOk []).closedProcessHandle = !true ∧
      (launcher true wOk []).closedThreadHandle = true ∧
      (launcher true { wOk with childExitCode := 7 } []).exitCode = 0) := by
  have h0 := launcher_post_spawn false wOk [] rfl rfl
  have h1 := launcher_post_spawn true wOk [] rfl rfl
  exact ⟨⟨h0.1, h0.2.1, h0.2.2.1, h0.2.2.2.1, h0.2.2.2.2 7⟩,
    ⟨h1.1, h1.2.1, h1.2.2.1, h1.2.2.2.1, h1.2.2.2.2 7⟩⟩

/-- C2: after environment preparation the module-search-path variable equals
exactly `<base>site_packages;<base>`, for every inherited prior value; the
assignment never merges the prior value. -/
theorem launcher_env_overwrite (debug : Bool) (w : World)
    (args : List (List Char)) (p : List Char) (hp : w.imagePath = some p)
    (hscd : w.setCurrentDirOk (cwdOf p) = true)
    (hfe : w.fileExists (pythonPathOf debug (cwdOf p)) = true)
    (hpe : w.putenvOk = true) :
    lookupEnv (launcher debug w args).envAfter (str "PYTHONPATH") =
      some (cwdOf p ++ str "site_packages;" ++ cwdOf p) ∧
    (∀ env2 : List (List Char × List Char),
      lookupEnv (launcher debug { w with env := env2 } args).envAfter
        (str "PYTHONPATH") =
        some (cwdOf p ++ str "site_packages;" ++ cwdOf p)) := by
  obtain ⟨ip, scd, fe, po, cpo, le, env, cec⟩ := w
  replace hp : ip = some p := hp
  subst hp
  replace hscd : scd (cwdOf p) = true := hscd
  replace hfe : fe (pythonPathOf debug (cwdOf p)) = true := hfe
  replace hpe : po = true := hpe
  subst hpe
  constructor
  · cases cpo <;>
      simp [launcher, afterLocate, hscd, hfe, envAfterPrep, failResult,
        lookupEnv_putenv]
  · intro env2
    cases cpo <;>
      simp [launcher, afterLocate, hscd, hfe, envAfterPrep, failResult,
        lookupEnv_putenv]

/-- Witness for C2: a prior PYTHONPATH value `V` is overwritten, not
merged. -/
theorem launcher_env_overwrite_witness :
    lookupEnv (launcher false wPrior []).envAfter (str "PYTHONPATH") =
      some (cwdOf (str "C:\\app\\run.exe") ++ str "site_packages;" ++
        cwdOf (str "C:\\app\\run.exe")) ∧
    lookupEnv
      (launcher false { wPrior with env := [(str "PYTHONPATH", str "V")] }
        []).envAfter (str "PYTHONPATH") =
      some (cwdOf (str "C:\\app\\run.exe") ++ str "site_packages;" ++
        cwdOf (str "C:\\app\\run.exe")) := by
  have h := launcher_env_overwrite false wPrior [] (str "C:\\app\\run.exe")
    rfl rfl rfl rfl
  exact ⟨h.1, h.2 [(str "PYTHONPATH", str "V")]⟩

/-- C4: when the file-attributes query reports the interpreter missing, the
launcher shows exactly one message naming the expected interpreter path,
exits 1, creates no child, and has not yet assigned the environment
variable. -/
theorem launcher_interp_missing (debug : Bool) (w : World)
    (args : List (List Char)) (p : List Char) (hp : w.imagePath = some p)
    (hscd : w.setCurrentDirOk (cwdOf p) = true)
    (hfe : w.fileExists (pythonPathOf debug (cwdOf p)) = false) :
    (launcher debug w args).messages =
      [errMsgInterp (pythonPathOf debug (cwdOf p))] ∧
    (∃ s t, errMsgInterp (pythonPathOf debug (cwdOf p)) =
      s ++ pythonPathOf debug (cwdOf p) ++ t) ∧
    (launcher debug w args).exitCode = 1 ∧
    (launcher debug w args).spawned = none ∧
    (launcher debug w args).envAfter = w.env := by
  obtain ⟨ip, scd, fe, po, cpo, le, env, cec⟩ := w
  replace hp : ip = some p := hp
  subst hp
  replace hscd : scd (cwdOf p) = true := hscd
  replace hfe : fe (pythonPathOf debug (cwdOf p)) = false := hfe
  refine ⟨?_, ⟨str "Python environment not found at:\n",
    str "\n\nPlease ensure base_env is configured correctly.", ?_⟩, ?_, ?_, ?_⟩ <;>
    simp [launcher, afterLocate, hscd, hfe, failResult, errMsgInterp]

/-- Witness for C4 at `C:\app\run.exe` with the interpreter absent. -/
theorem launcher_interp_missing_witness :
    (launcher false wInterpMissing []).messages =
      [errMsgInterp (pythonPathOf false (cwdOf (str "C:\\app\\run.exe")))] ∧
    (∃ s t, errMsgInterp (pythonPathOf false (cwdOf (str "C:\\app\\run.exe"))) =
      s ++ pythonPathOf false (cwdOf (str "C:\\app\\run.exe")) ++ t) ∧
    (launcher false wInterpMissing []).exitCode = 1 ∧
    (launcher false wInterpMissing []).spawned = none ∧
    (launcher false wInterpMissing []).envAfter = wInterpMissing.env :=
  launcher_interp_missing false wInterpMissing [] (str "C:\\app\\run.exe")
    rfl rfl rfl

/-- C5: when `CreateProcess` fails the launcher shows exactly the
"Failed to launch process." message carrying the numeric OS error code and
exits 1; no other failure kind's message depends on the error code. -/
theorem launcher_spawn_failed (debug : Bool) (w : World)
    (args : List (List Char)) (p : List Char) (hp : w.imagePath = some p)
    (hscd : w.setCurrentDirOk (cwdOf p) = true)
    (hfe : w.fileExists (pythonPathOf debug (cwdOf p)) = true)
    (hcp : w.createProcessOk = false) :
    (launcher debug w args).messages = [errMsgSpawn w.lastError] ∧
    errMsgSpawn w.lastError =
      str "Failed to launch process.\nError code: " ++
        winErrDecimal w.lastError ∧
    (launcher debug w args).exitCode = 1 ∧
    (launcher debug w args).spawned = none ∧
    (∀ (w2 : World) (e : Nat),
      (reachesSpawn debug w2 = true → w2.createProcessOk = true) →
      (launcher debug { w2 with lastError := e } args).messages =
        (launcher debug w2 args).messages) := by
  obtain ⟨ip, scd, fe, po, cpo, le, env, cec⟩ := w
  replace hp : ip = some p := hp
  subst hp
  replace hscd : scd (cwdOf p) = true := hscd
  replace hfe : fe (pythonPathOf debug (cwdOf p)) = true := hfe
  replace hcp : cpo = false := hcp
  subst hcp
  refine ⟨?_, rfl, ?_, ?_, ?_⟩
  · simp [launcher, afterLocate, hscd, hfe, failResult]
  · simp [launcher, afterLocate, hscd, hfe, failResult]
  · simp [launcher, afterLocate, hscd, hfe, failResult]
  · intro w2 e h2
    obtain ⟨ip2, scd2, fe2, po2, cpo2, le2, env2, cec2⟩ := w2
    cases ip2 with
    | none => simp [launcher, failResult]
    | some q =>
      by_cases h1 : scd2 (cwdOf q) = true
      · by_cases hf : fe2 (pythonPathOf debug (cwdOf q)) = true
        · have hcpo : cpo2 = true := h2 (by simp [reachesSpawn, h1, hf])
          subst hcpo
          simp [launcher, afterLocate, h1, hf]
        · simp [launcher, afterLocate, h1, hf, failResult]
      · simp [launcher, afterLocate, h1, failResult]

/-- Witness for C5: spawn failure with OS error code 5. -/
theorem launcher_spawn_failed_witness :
    (launcher false wSpawnFail []).messages = [errMsgSpawn 5] ∧
    errMsgSpawn 5 =
      str "Failed to launch process.\nError code: " ++ winErrDecimal 5 ∧
    (launcher false wSpawnFail []).exitCode = 1 ∧
    (launcher false wSpawnFail []).spawned = none ∧
    (launcher false { wOk with lastError := 9 } []).messages =
      (launcher false wOk []).messages := by
  have h := launcher_spawn_failed false wSpawnFail [] (str "C:\\app\\run.exe")
    rfl rfl rfl rfl
  exact ⟨h.1, h.2.1, h.2.2.1, h.2.2.2.1, h.2.2.2.2 wOk 9 (fun _ => rfl)⟩

/-- C9: the result of `_putenv` is discarded, so a run that reaches
environment preparation proceeds to the spawn regardless of the result, and
a failed assignment silently yields a child whose environment lacks the
variable. -/
theorem launcher_putenv_unchecked (debug : Bool) (w : World)
    (args : List (List Char)) (h : reachesSpawn debug w = true)
    (hpo : w.putenvOk = false) :
    ((launcher debug w args).exitCode =
      if w.createProcessOk then 0 else 1) ∧
    ((launcher debug w args).spawned ≠ none ↔ w.createProcessOk = true) ∧
    (launcher debug w args).envAfter = w.env ∧
    lookupEnv (launcher debug w args).envAfter (str "PYTHONPATH") =
      lookupEnv w.env (str "PYTHONPATH") ∧
    (∀ b : Bool,
      (launcher debug { w with putenvOk := b } args).exitCode =
        (launcher debug w args).exitCode ∧
      (launcher debug { w with putenvOk := b } args).spawned =
        (launcher debug w args).spawned ∧
      (launcher debug { w with putenvOk := b } args).messages =
        (launcher debug w args).messages) := by
  obtain ⟨ip, scd, fe, po, cpo, le, env, cec⟩ := w
  cases ip with
  | none => simp [reachesSpawn] at h
  | some p =>
    simp only [reachesSpawn, Bool.and_eq_true] at h
    replace hpo : po = false := hpo
    subst hpo
    refine ⟨?_, ?_, ?_, ?_, fun b => ?_⟩ <;>
      cases cpo <;>
        simp [launcher, afterLocate, h.1, h.2, envAfterPrep, failResult]

/-- Witness for C9: with `_putenv` failing the child is still spawned and
the environment is unchanged. -/
theorem launcher_putenv_unchecked_witness :
    ((launcher false wPutenvFail []).exitCode =
      if wPutenvFail.createProcessOk then 0 else 1) ∧
    ((launcher false wPutenvFail []).spawned ≠ none ↔
      wPutenvFail.createProcessOk = true) ∧
    (launcher false wPutenvFail []).envAfter = wPutenvFail.env ∧
    lookupEnv (launcher false wPutenvFail []).envAfter (str "PYTHONPATH") =
      lookupEnv wPutenvFail.env (str "PYTHONPATH") ∧
    ((launcher false { wPutenvFail with putenvOk := true } []).exitCode =
      (launcher false wPutenvFail []).exitCode ∧
    (launcher false { wPutenvFail with putenvOk := true } []).spawned =
      (launcher false wPutenvFail []).spawned ∧
    (launcher false { wPutenvFail with putenvOk := true } []).messages =
      (launcher false wPutenvFail []).messages) := by
  have h := launcher_putenv_unchecked false wPutenvFail [] rfl rfl
  exact ⟨h.1, h.2.1, h.2.2.1, h.2.2.2.1, h.2.2.2.2 true⟩

/-- C8: from an absolute image path the derived base directory ends in a
path separator and the base directory, interpreter path, bootstrap script
path and packages directory are all absolute. -/
theorem launcher_paths_absolute (debug : Bool) (p : List Char)
    (h : isAbsolute p = true) :
    endsWithSep (cwdOf p) = true ∧
    isAbsolute (cwdOf p) = true ∧
    isAbsolute (pythonPathOf debug (cwdOf p)) = true ∧
    isAbsolute (bootScriptOf (cwdOf p)) = true ∧
    isAbsolute (packagesDirOf (cwdOf p)) = true := by
  obtain ⟨a, c0, t0, c1, t1, h1, h2, ha, hc0, hc1, hmem⟩ := cwdOf_shape p h
  have habs : isAbsolute (cwdOf p) = true := by
    rw [h1]; simp [isAbsolute, ha, hc0]
  have hend : endsWithSep (cwdOf p) = true := by
    have hl : (cwdOf p).getLast? = some c1 := by
      rw [h2, show a :: ':' :: t1 ++ [c1] = (a :: ':' :: t1) ++ [c1] from rfl]
      exact List.getLast?_concat _
    simp [endsWithSep, hl, hc1]
  exact ⟨hend, habs, isAbsolute_append _ _ habs, isAbsolute_append _ _ habs,
    isAbsolute_append _ _ habs⟩

/-- Witness for C8 at image path `C:\app\run.exe`. -/
theorem launcher_paths_absolute_witness :
    endsWithSep (cwdOf (str "C:\\app\\run.exe")) = true ∧
    isAbsolute (cwdOf (str "C:\\app\\run.exe")) = true ∧
    isAbsolute (pythonPathOf false (cwdOf (str "C:\\app\\run.exe"))) = true ∧
    isAbsolute (bootScriptOf (cwdOf (str "C:\\app\\run.exe"))) = true ∧
    isAbsolute (packagesDirOf (cwdOf (str "C:\\app\\run.exe"))) = true :=
  launcher_paths_absolute false (str "C:\\app\\run.exe") rfl

/-- C10: under the precondition that the base directory fits `MAX_PATH`
less the longest fixed suffix (`base_env\pythonw.exe` plus terminator),
every composed string fits its destination buffer including the NUL
terminator; and the composition itself never truncates, its length growing
linearly with the base directory. -/
theorem sprintf_buffers_within_bounds (debug : Bool) (cwd : List Char)
    (h : cwd.length + (str "base_env\\pythonw.exe").length + 1 ≤ 260) :
    (pythonPathOf debug cwd).length + 1 ≤ 260 ∧
    (bootScriptOf cwd).length + 1 ≤ 260 ∧
    (cmdLineOf (pythonPathOf debug cwd) (bootScriptOf cwd)).length + 1 ≤
      260 * 4 ∧
    (pythonEnvOf cwd).length + 1 ≤ 260 * 4 ∧
    (∀ cwd2 : List Char, (pythonPathOf debug cwd2).length =
      cwd2.length + (interpRel debug).length) := by
  have h20 : (str "base_env\\pythonw.exe").length = 20 := rfl
  have hi : (interpRel debug).length ≤ 20 := by cases debug <;> decide
  have h7 : (str "boot.py").length = 7 := rfl
  have hq1 : (str "\"").length = 1 := rfl
  have hq3 : (str "\" \"").length = 3 := rfl
  have h11 : (str "PYTHONPATH=").length = 11 := rfl
  have h14 : (str "site_packages;").length = 14 := rfl
  rw [h20] at h
  refine ⟨?_, ?_, ?_, ?_, fun cwd2 => ?_⟩ <;>
    simp only [pythonPathOf, bootScriptOf, cmdLineOf, pythonEnvOf,
      List.length_append, h7, hq1, hq3, h11, h14] <;>
    omega

/-- Witness for C10 at base directory `C:\app\`. -/
theorem sprintf_buffers_within_bounds_witness :
    (pythonPathOf false (str "C:\\app\\")).length + 1 ≤ 260 ∧
    (bootScriptOf (str "C:\\app\\")).length + 1 ≤ 260 ∧
    (cmdLineOf (pythonPathOf false (str "C:\\app\\"))
      (bootScriptOf (str "C:\\app\\"))).length + 1 ≤ 260 * 4 ∧
    (pythonEnvOf (str "C:\\app\\")).length + 1 ≤ 260 * 4 ∧
    (pythonPathOf false (List.replicate 300 'a')).length =
      (List.replicate 300 'a').length + (interpRel false).length := by
  have h := sprintf_buffers_within_bounds false (str "C:\\app\\") (by decide)
  exact ⟨h.1, h.2.1, h.2.2.1, h.2.2.2.1, h.2.2.2.2 (List.replicate 300 'a')⟩

theorem cmdLineOf_eq (pp bs : List Char) :
    cmdLineOf pp bs = '"' :: (pp ++ ('"' :: ' ' :: '"' :: (bs ++ ['"']))) := by
  show ['"'] ++ pp ++ ['"', ' ', '"'] ++ bs ++ ['"'] =
    '"' :: (pp ++ ('"' :: ' ' :: '"' :: (bs ++ ['"'])))
  simp [List.append_assoc]

/-- The composed command line for a base directory `t ++ ['\\']` with a
quote-free, non-empty `t` matches the spec's command-line pattern. -/
theorem matchesCmdPattern_of (debug : Bool) (t : List Char)
    (hq : '"' ∉ t) (hne : t ≠ []) :
    matchesCmdPattern (cmdLineOf (pythonPathOf debug (t ++ ['\\']))
      (bootScriptOf (t ++ ['\\']))) = true := by
  have hppe : pythonPathOf debug (t ++ ['\\']) =
      t ++ ('\\' :: interpRel debug) := by
    show (t ++ ['\\']) ++ interpRel debug = t ++ ('\\' :: interpRel debug)
    simp [List.append_assoc]
  have hbse : bootScriptOf (t ++ ['\\']) = t ++ ('\\' :: str "boot.py") := by
    show (t ++ ['\\']) ++ str "boot.py" = t ++ ('\\' :: str "boot.py")
    simp [List.append_assoc]
  have hqpp : '"' ∉ t ++ ('\\' :: interpRel debug) := by
    intro hx
    rcases List.mem_append.mp hx with hx | hx
    · exact hq hx
    · cases debug <;> revert hx <;> decide
  have hqbs : '"' ∉ t ++ ('\\' :: str "boot.py") := by
    intro hx
    rcases List.mem_append.mp hx with hx | hx
    · exact hq hx
    · revert hx; decide
  have ht : 0 < t.length := List.length_pos.mpr hne
  have htok1 : tok1Matches (t ++ ('\\' :: interpRel debug)) = true := by
    cases debug
    · show tok1Matches (t ++ str "\\base_env\\pythonw.exe") = true
      have hl : (str "\\base_env\\pythonw.exe").length = 21 := rfl
      simp only [tok1Matches, endsWith_append, hl, List.length_append,
        Bool.true_and, Bool.or_eq_true, Bool.and_eq_true, decide_eq_true_eq]
      left
      omega
    · show tok1Matches (t ++ str "\\base_env\\python.exe") = true
      have hl : (str "\\base_env\\python.exe").length = 20 := rfl
      simp only [tok1Matches, endsWith_append, hl, List.length_append,
        Bool.true_and, Bool.or_eq_true, Bool.and_eq_true, decide_eq_true_eq]
      right
      omega
  have htok2 : tok2Matches (t ++ ('\\' :: str "boot.py")) = true := by
    show tok2Matches (t ++ str "\\boot.py") = true
    have hl : (str "\\boot.py").length = 8 := rfl
    simp only [tok2Matches, endsWith_append, hl, List.length_append,
      Bool.true_and, Bool.and_eq_true, decide_eq_true_eq]
    omega
  rw [cmdLineOf_eq, hppe, hbse]
  simp only [matchesCmdPattern]
  rw [splitAtQuote_append _ _ hqpp]
  simp only []
  rw [splitAtQuote_append _ _ hqbs]
  simp [htok1, htok2]

/-- C3: for a well-formed absolute image path the spawned command line is
exactly the two quoted arguments `"<base>base_env\python(w).exe"`
`"<base>boot.py"` — `pythonw.exe` in release mode, `python.exe` in debug
mode — matching the spec's pattern, with both paths absolute and nothing
else on the line. -/
theorem launcher_cmdline_shape (debug : Bool) (w : World)
    (args : List (List Char)) (p : List Char) (hp : w.imagePath = some p)
    (habs : isAbsolute p = true) (hq : '"' ∉ p) (hs : '/' ∉ p)
    (hscd : w.setCurrentDirOk (cwdOf p) = true)
    (hfe : w.fileExists (pythonPathOf debug (cwdOf p)) = true)
    (hcp : w.createProcessOk = true) :
    (launcher debug w args).spawned =
      some (cmdLineOf (pythonPathOf debug (cwdOf p))
        (bootScriptOf (cwdOf p))) ∧
    cmdLineOf (pythonPathOf debug (cwdOf p)) (bootScriptOf (cwdOf p)) =
      str "\"" ++ pythonPathOf debug (cwdOf p) ++ str "\" \"" ++
        bootScriptOf (cwdOf p) ++ str "\"" ∧
    matchesCmdPattern (cmdLineOf (pythonPathOf debug (cwdOf p))
      (bootScriptOf (cwdOf p))) = true ∧
    isAbsolute (pythonPathOf debug (cwdOf p)) = true ∧
    isAbsolute (bootScriptOf (cwdOf p)) = true := by
  obtain ⟨a, c0, t0, c1, t1, h1, h2, ha, hc0, hc1, hmem⟩ := cwdOf_shape p habs
  have hc1' : c1 = '\\' := by
    have hin : c1 ∈ cwdOf p := by
      rw [h2, show a :: ':' :: t1 ++ [c1] = (a :: ':' :: t1) ++ [c1] from rfl]
      exact List.mem_append.mpr (Or.inr (by simp))
    have hns : c1 ≠ '/' := fun he => hs (he ▸ hmem c1 hin)
    simp only [isSep, Bool.or_eq_true, beq_iff_eq] at hc1
    tauto
  subst hc1'
  have hcwd : cwdOf p = (a :: ':' :: t1) ++ ['\\'] := by
    rw [h2]
  have htq : '"' ∉ a :: ':' :: t1 := by
    intro hx
    apply hq
    apply hmem
    rw [hcwd]
    exact List.mem_append.mpr (Or.inl hx)
  have habs' : isAbsolute (cwdOf p) = true := by
    rw [h1]; simp [isAbsolute, ha, hc0]
  refine ⟨?_, rfl, ?_, isAbsolute_append _ _ habs',
    isAbsolute_append _ _ habs'⟩
  · obtain ⟨ip, scd, fe, po, cpo, le, env, cec⟩ := w
    replace hp : ip = some p := hp
    subst hp
    replace hscd : scd (cwdOf p) = true := hscd
    replace hfe : fe (pythonPathOf debug (cwdOf p)) = true := hfe
    replace hcp : cpo = true := hcp
    subst hcp
    simp [launcher, afterLocate, hscd, hfe]
  · rw [hcwd]
    exact matchesCmdPattern_of debug (a :: ':' :: t1) htq (by simp)

/-- Witness for C3 at `C:\app\run.exe` in release mode. -/
theorem launcher_cmdline_shape_witness :
    (launcher false wOk []).spawned =
      some (cmdLineOf (pythonPathOf false (cwdOf (str "C:\\app\\run.exe")))
        (bootScriptOf (cwdOf (str "C:\\app\\run.exe")))) ∧
    cmdLineOf (pythonPathOf false (cwdOf (str "C:\\app\\run.exe")))
      (bootScriptOf (cwdOf (str "C:\\app\\run.exe"))) =
      str "\"" ++ pythonPathOf false (cwdOf (str "C:\\app\\run.exe")) ++
        str "\" \"" ++ bootScriptOf (cwdOf (str "C:\\app\\run.exe")) ++
        str "\"" ∧
    matchesCmdPattern (cmdLineOf
      (pythonPathOf false (cwdOf (str "C:\\app\\run.exe")))
      (bootScriptOf (cwdOf (str "C:\\app\\run.exe")))) = true ∧
    isAbsolute (pythonPathOf false (cwdOf (str "C:\\app\\run.exe"))) = true ∧
    isAbsolute (bootScriptOf (cwdOf (str "C:\\app\\run.exe"))) = true :=
  launcher_cmdline_shape false wOk [] (str "C:\\app\\run.exe") rfl rfl
    (by decide) (by decide) rfl rfl rfl

